import Mathlib

/-!
# Verification of the gitness account-update and validation slice

Shallow embedding of `src/types/check/serviceAccount.go` (the
`check.ServiceAccount` validator and the tests of the user update handler
`HandleUpdate`) together with spec-modelled definitions for the parts of the
repository that are referenced but whose source is not in the slice
(`check.Name`, the `HandleUpdate` orchestrator, the `render` helpers and the
JSON serialization of `types.User`).
-/

namespace Gitness

/-- A Go `error` value as surfaced by the check package: either a typed
`ValidationError` carrying a human-readable message (the struct
`check.ValidationError`), or any other, generic error. -/
inductive CheckError where
  | validation (message : String)
  | generic (message : String)
deriving Repr, DecidableEq

/-- The message carried by a `CheckError`. -/
def CheckError.message : CheckError → String
  | .validation m => m
  | .generic m => m

/-- `enum.ParentResourceType` is a string-typed enumeration. The two values
referenced by `check.ServiceAccount` are `ParentResourceTypeRepo` and
`ParentResourceTypeSpace`; their package (`types/enum`) is outside the slice,
so they are kept as distinct string constants. -/
def ParentResourceTypeRepo : String := "repo"

/-- The space-scoped parent resource type constant. -/
def ParentResourceTypeSpace : String := "space"

/-- `types.ServiceAccount`: a delegated identity scoped to a parent resource.
Only the fields read by `check.ServiceAccount` plus the parent identifier from
the spec's data model are carried. -/
structure ServiceAccount where
  name : String
  parentType : String
  parentId : Int
deriving Repr, DecidableEq

/-- `check.ErrServiceAccountParentTypeIsInvalid` from
`src/types/check/serviceAccount.go`, the shared singleton validation error. -/
def ErrServiceAccountParentTypeIsInvalid : CheckError :=
  .validation "Provided parent type is invalid."

/-- Modelled from the spec: `check.Name` is not under `src/`.  Per the spec,
`ValidateName(name)` "fails with InvalidName when the name is empty or
otherwise structurally malformed"; the exact charset rule is a configuration
detail left unspecified, while "emptiness is always rejected", so only the
emptiness rule is modelled.  The failure is a typed validation error. -/
def Name (name : String) : Option CheckError :=
  if name = "" then some (.validation "Provided name is empty.") else none

/-- `check.ServiceAccount` from `src/types/check/serviceAccount.go`: verify
the name first; if that passes, verify that the parent type is one of the two
enumerated values, otherwise return the shared singleton error.  `none`
models the Go `nil` error. -/
def ServiceAccountCheck (sa : ServiceAccount) : Option CheckError :=
  match Name sa.name with
  | some err => some err
  | none =>
    if sa.parentType ≠ ParentResourceTypeRepo ∧ sa.parentType ≠ ParentResourceTypeSpace then
      some ErrServiceAccountParentTypeIsInvalid
    else
      none

/-- Outcome of calling a Go function that may dereference a nil pointer. -/
inductive GoOutcome (α : Type) where
  | ok (value : α)
  | panics (msg : String)
deriving Repr, DecidableEq

/-- `check.ServiceAccount` as called on a possibly-nil `*types.ServiceAccount`:
the function reads `sa.Name` without a nil check, so a nil argument panics at
the dereference; otherwise it behaves as `ServiceAccountCheck`. -/
def ServiceAccountCheckPtr (sa : Option ServiceAccount) : GoOutcome (Option CheckError) :=
  match sa with
  | none => .panics "runtime error: invalid memory address or nil pointer dereference"
  | some s => .ok (ServiceAccountCheck s)

/-- `types.User`: the account record held by the Account Record Store.
Fields per the spec's data model: identifier, email, display name, credential
hash (`Password` in Go, never serialized outward), administrative flag. -/
structure User where
  id : Int
  email : String
  name : String
  password : String
  admin : Bool
deriving Repr, DecidableEq

/-- `types.UserInput`: the partial-update payload.  Each field is an explicit
option — absence means "leave unchanged". -/
structure UserInput where
  email : Option String
  name : Option String
  password : Option String
deriving Repr, DecidableEq

/-- Modelled from the spec: the JSON serialization of `types.User` is not
under `src/`.  The record is rendered as its public fields in order; the
credential hash carries the `json:"-"` tag and is excluded unconditionally,
per the spec's "excluding the credential hash field from the serialized
representation unconditionally". -/
def renderUser (u : User) : List (String × String) :=
  [ ("id", toString u.id)
  , ("email", u.email)
  , ("name", u.name)
  , ("admin", toString u.admin) ]

/-- Modelled from the spec: the `render` package is not under `src/`.  The
generic internal-fault message of `render.ErrInternal`, never exposing the
underlying cause. -/
def errInternalMessage : String := "Internal Server Error"

/-- A response body: either the serialized record fields or an error message
object (`render.Error`). -/
inductive Body where
  | record (fields : List (String × String))
  | err (message : String)
deriving Repr, DecidableEq

/-- An HTTP-style response: status code and body. -/
structure Response where
  code : Nat
  body : Body
deriving Repr, DecidableEq

/-- One call made by the handler against the Account Record Store. -/
inductive StoreCall where
  | find (id : Int)
  | update (u : User)
deriving Repr, DecidableEq

/-- The Account Record Store boundary: keyed lookup (record or error) and
update (`none` = success, `some msg` = storage failure). -/
structure UserStore where
  find : Int → Except String User
  update : User → Option String

/-- The Hashing Strategy boundary: plaintext credential to opaque hash, or a
failure. -/
def HashStrategy : Type := String → Except String String

/-- Modelled from the spec: step 4 of the Update Handler.  Apply present
fields from the payload onto the loaded record field by field: an email
overwrites the record email, a present plaintext credential is hashed (a
hashing failure aborts with an internal fault before any persistence), a
present display name overwrites the record name; absent fields leave the
record untouched. -/
def applyFields (hash : HashStrategy) (u : User) (input : UserInput) :
    Except String User :=
  let u := match input.email with
    | none => u
    | some e => { u with email := e }
  match input.password with
  | none =>
    .ok (match input.name with
      | none => u
      | some n => { u with name := n })
  | some pw =>
    match hash pw with
    | .error e => .error e
    | .ok h =>
      let u := { u with password := h }
      .ok (match input.name with
        | none => u
        | some n => { u with name := n })

/-- Modelled from the spec: the `HandleUpdate` orchestrator is not under
`src/` (only its tests are).  Per the spec's state machine: resolve the
principal's identifier from the session, load the record via the store by
that identifier (failure → internal fault), decode the payload (failure →
client fault naming the decode problem), apply present fields (hashing
failure → internal fault, no persistence), persist via the store's update
(failure → internal fault), render the record without the credential hash.
The decoded body arrives as `Except`: a decode failure carries the decoder's
message.  The result pairs the response with the list of store calls made. -/
def handleUpdate (store : UserStore) (hash : HashStrategy)
    (principalId : Int) (body : Except String UserInput) :
    Response × List StoreCall :=
  match store.find principalId with
  | .error _ => (⟨500, .err errInternalMessage⟩, [.find principalId])
  | .ok user =>
    match body with
    | .error e =>
      (⟨400, .err ("Invalid request body: " ++ e ++ ".")⟩, [.find principalId])
    | .ok input =>
      match applyFields hash user input with
      | .error _ => (⟨500, .err errInternalMessage⟩, [.find principalId])
      | .ok user1 =>
        match store.update user1 with
        | some _ =>
          (⟨500, .err errInternalMessage⟩, [.find principalId, .update user1])
        | none =>
          (⟨200, .record (renderUser user1)⟩, [.find principalId, .update user1])

/-- Whether a response body avoids any field named "password" (the credential
hash field of the serialized record). -/
def Body.noPasswordField : Body → Bool
  | .record fields => fields.all (fun kv => kv.1 ≠ "password")
  | .err _ => true

/-- The identifier a store call targets: the looked-up key for a find, the
record's identifier for an update. -/
def StoreCall.targetId : StoreCall → Int
  | .find i => i
  | .update u => u.id

/-! Concrete fixtures mirroring the unit tests of
`src/types/check/serviceAccount.go` (`TestUpdate`, `TestUpdate_HashError`,
`TestUpdate_BadRequest`, `TestUpdate_ServerError`). -/

/-- The deterministic hash value produced by the test double
`bcryptHashStatic`. -/
def staticBcryptHash : String :=
  "$2a$10$onMfkmQZtlkOfnZJe7GaiesbPBbXcyB53KyFKllWq829mxlhNoJSi"

/-- The test double returning a deterministic hash value. -/
def bcryptHashStatic : HashStrategy := fun _ => Except.ok staticBcryptHash

/-- The test double returning `bcrypt.ErrHashTooShort` on every call. -/
def bcryptHashErrror : HashStrategy := fun _ =>
  Except.error "crypto/bcrypt: hashedSecret too short to be a bcrypted password"

/-- The record prior to the update in `TestUpdate`: email
`octocat@google.com`, credential hash `acme`, zero identifier. -/
def octocatBefore : User :=
  { id := 0, email := "octocat@google.com", name := "", password := "acme", admin := false }

/-- The payload of `TestUpdate`: email and plaintext password present. -/
def octocatInput : UserInput :=
  { email := some "octocat@google.com", name := none, password := some "password" }

/-- The payload of `TestUpdate_ServerError`: only the email is present. -/
def emailOnlyInput : UserInput :=
  { email := some "octocat@github.com", name := none, password := none }

/-- `octocatBefore` after applying `emailOnlyInput`: only the email changed. -/
def octocatAfterEmail : User :=
  { id := 0, email := "octocat@github.com", name := "", password := "acme", admin := false }

/-- A store holding `octocatBefore` under its identifier; updates succeed. -/
def okStore : UserStore :=
  { find := fun i => if i = 0 then .ok octocatBefore else .error "sql: no rows in result set"
  , update := fun _ => none }

/-- A store holding `octocatBefore` under its identifier; updates fail with
the error of `TestUpdate_ServerError`. -/
def failUpdateStore : UserStore :=
  { find := fun i => if i = 0 then .ok octocatBefore else .error "sql: no rows in result set"
  , update := fun _ => some "Error from UT" }

/-! ## Helper lemmas -/

/-- Characterization of a successful `applyFields`: the identifier and the
administrative flag are preserved, present payload fields overwrite the
record, absent ones leave it untouched, and a present credential is stored as
the strategy's output. -/
theorem applyFields_ok (hash : HashStrategy) (u u1 : User) (input : UserInput)
    (h : applyFields hash u input = .ok u1) :
    u1.id = u.id ∧ u1.admin = u.admin ∧
    u1.email = input.email.getD u.email ∧
    u1.name = input.name.getD u.name ∧
    (input.password = none → u1.password = u.password) ∧
    (∀ pw, input.password = some pw → hash pw = .ok u1.password) := by
  obtain ⟨ie, iname, ipw⟩ := input
  obtain ⟨uid, ue, un, up, ua⟩ := u
  cases ipw with
  | none =>
    cases ie <;> cases iname <;> simp_all [applyFields] <;> subst h <;> simp
  | some pw =>
    cases hh : hash pw with
    | error e => cases ie <;> cases iname <;> simp_all [applyFields]
    | ok hv =>
      cases ie <;> cases iname <;> simp_all [applyFields] <;> subst h <;> simp

/-- `applyFields` fails exactly with the hashing failure when the payload
carries a plaintext credential that the strategy rejects. -/
theorem applyFields_hashError (hash : HashStrategy) (u : User) (input : UserInput)
    (pw e : String) (hpw : input.password = some pw) (hh : hash pw = .error e) :
    applyFields hash u input = .error e := by
  obtain ⟨ie, iname, ipw⟩ := input
  simp only [UserInput.password] at hpw
  subst hpw
  cases ie <;> cases iname <;> simp [applyFields, hh]

/-! ## Claim theorems -/

/-- C6: `ServiceAccount` fails with the parent-type error if and only if the
name passes validation and the parent type is outside {repository, space};
whenever the name is empty it fails with the name error regardless of the
parent type, because the name check runs before the parent-type check. -/
theorem serviceAccount_error_order (sa : ServiceAccount) :
    (ServiceAccountCheck sa = some ErrServiceAccountParentTypeIsInvalid ↔
      Name sa.name = none ∧ sa.parentType ≠ ParentResourceTypeRepo ∧
        sa.parentType ≠ ParentResourceTypeSpace) ∧
    (sa.name = "" →
      ∃ e, Name sa.name = some e ∧ ServiceAccountCheck sa = some e ∧
        e ≠ ErrServiceAccountParentTypeIsInvalid) := by
  by_cases hname : sa.name = ""
  · constructor
    · simp [ServiceAccountCheck, Name, hname, ErrServiceAccountParentTypeIsInvalid]
    · intro _
      exact ⟨.validation "Provided name is empty.",
        by simp [Name, hname],
        by simp [ServiceAccountCheck, Name, hname],
        by simp [ErrServiceAccountParentTypeIsInvalid]⟩
  · constructor
    · by_cases hrt : sa.parentType = ParentResourceTypeRepo ∨
          sa.parentType = ParentResourceTypeSpace
      · rcases hrt with h | h <;>
          simp [ServiceAccountCheck, Name, hname, h, ErrServiceAccountParentTypeIsInvalid]
      · push_neg at hrt
        simp [ServiceAccountCheck, Name, hname, hrt.1, hrt.2]
    · intro h
      exact absurd h hname

/-- C7: the validation library returns, for every service account, either no
error or a typed validation error; it never returns a generic error. -/
theorem serviceAccount_typed_validation_error (sa : ServiceAccount) :
    ServiceAccountCheck sa = none ∨
      ∃ m, ServiceAccountCheck sa = some (CheckError.validation m) := by
  by_cases hname : sa.name = ""
  · exact Or.inr ⟨"Provided name is empty.", by simp [ServiceAccountCheck, Name, hname]⟩
  · by_cases hrt : sa.parentType = ParentResourceTypeRepo ∨
        sa.parentType = ParentResourceTypeSpace
    · refine Or.inl ?_
      rcases hrt with h | h <;> simp [ServiceAccountCheck, Name, hname, h]
    · push_neg at hrt
      exact Or.inr ⟨"Provided parent type is invalid.",
        by simp [ServiceAccountCheck, Name, hname, hrt.1, hrt.2,
          ErrServiceAccountParentTypeIsInvalid]⟩

/-- C10: on every non-nil pointer the validator is total and returns either
nil, the name error, or the shared singleton parent-type error whose message
is "Provided parent type is invalid."; a nil pointer panics at the
unguarded dereference of the name field. -/
theorem serviceAccountPtr_total_on_nonnil (s : ServiceAccount) :
    (∃ r, ServiceAccountCheckPtr (some s) = GoOutcome.ok r ∧
      (r = none ∨ (∃ e, Name s.name = some e ∧ r = some e) ∨
        r = some ErrServiceAccountParentTypeIsInvalid)) ∧
    CheckError.message ErrServiceAccountParentTypeIsInvalid =
      "Provided parent type is invalid." ∧
    ServiceAccountCheckPtr none =
      GoOutcome.panics "runtime error: invalid memory address or nil pointer dereference" := by
  refine ⟨⟨ServiceAccountCheck s, rfl, ?_⟩, rfl, rfl⟩
  unfold ServiceAccountCheck
  cases hn : Name s.name with
  | some e => exact Or.inr (Or.inl ⟨e, rfl, rfl⟩)
  | none =>
    by_cases hrt : s.parentType ≠ ParentResourceTypeRepo ∧
        s.parentType ≠ ParentResourceTypeSpace
    · simp [hrt]
    · simp [hrt]

/-- C1: for every store, hashing strategy, principal and request body, the
response rendered by the update handler never contains the credential hash
field, regardless of whether the password was updated in the request. -/
theorem handleUpdate_never_renders_password (store : UserStore) (hash : HashStrategy)
    (pid : Int) (body : Except String UserInput) :
    Body.noPasswordField (handleUpdate store hash pid body).1.body = true := by
  unfold handleUpdate
  cases hf : store.find pid with
  | error e => simp [Body.noPasswordField]
  | ok user =>
    cases body with
    | error e => simp [Body.noPasswordField]
    | ok input =>
      cases ha : applyFields hash user input with
      | error e => simp [ha, Body.noPasswordField]
      | ok u1 =>
        cases hu : store.update u1 with
        | some e => simp [ha, hu, Body.noPasswordField]
        | none => simp [ha, hu, Body.noPasswordField, renderUser]

/-- C2: when the payload carries a plaintext credential and the hashing
strategy succeeds on it, a 200 completion persists exactly one updated record
whose stored credential hash is the strategy's output (and so differs from
the plaintext whenever the output does), with a present email overwriting the
record's email. -/
theorem handleUpdate_stores_hash_output
    (store : UserStore) (hash : HashStrategy) (pid : Int)
    (input : UserInput) (u : User) (pw h : String)
    (hfind : store.find pid = .ok u)
    (hpw : input.password = some pw)
    (hh : hash pw = .ok h)
    (hne : h ≠ pw) :
    (handleUpdate store hash pid (.ok input)).1.code = 200 →
    ∃ u1, (handleUpdate store hash pid (.ok input)).2 = [.find pid, .update u1] ∧
      u1.password = h ∧ u1.password ≠ pw ∧
      u1.email = input.email.getD u.email := by
  intro h200
  cases ha : applyFields hash u input with
  | error e => simp [handleUpdate, hfind, ha] at h200
  | ok u1 =>
    cases hu : store.update u1 with
    | some m => simp [handleUpdate, hfind, ha, hu] at h200
    | none =>
      have hch := applyFields_ok hash u u1 input ha
      have hpw1 := hch.2.2.2.2.2 pw hpw
      rw [hh] at hpw1
      simp only [Except.ok.injEq] at hpw1
      rw [hpw1] at hne
      exact ⟨u1, by simp [handleUpdate, hfind, ha, hu], hpw1.symm, hne, hch.2.2.1⟩

/-- C3: when the hashing strategy rejects the supplied plaintext credential,
the handler answers 500 with the generic internal-fault message and the
store's update operation is never invoked. -/
theorem handleUpdate_hash_failure_no_persist
    (store : UserStore) (hash : HashStrategy) (pid : Int)
    (input : UserInput) (u : User) (pw e : String)
    (hfind : store.find pid = .ok u)
    (hpw : input.password = some pw)
    (hh : hash pw = .error e) :
    handleUpdate store hash pid (.ok input) =
      (⟨500, .err errInternalMessage⟩, [.find pid]) := by
  simp [handleUpdate, hfind, applyFields_hashError hash u input pw e hpw hh]

/-- C4: when the request body fails to decode, the handler answers 400 with a
message naming the underlying decode failure, and the store's update
operation is never invoked. -/
theorem handleUpdate_decode_failure_bad_request
    (store : UserStore) (hash : HashStrategy) (pid : Int) (u : User) (e : String)
    (hfind : store.find pid = .ok u) :
    handleUpdate store hash pid (.error e) =
      (⟨400, .err ("Invalid request body: " ++ e ++ ".")⟩, [.find pid]) := by
  simp [handleUpdate, hfind]

/-- C5: when the store's update call fails, the handler answers 500 with the
generic internal-fault message (the cause is not exposed), even though the
loaded record was already mutated in memory; the 200 success path is never
taken. -/
theorem handleUpdate_store_failure_internal
    (store : UserStore) (hash : HashStrategy) (pid : Int)
    (input : UserInput) (u u1 : User) (msg : String)
    (hfind : store.find pid = .ok u)
    (happ : applyFields hash u input = .ok u1)
    (hupd : store.update u1 = some msg) :
    handleUpdate store hash pid (.ok input) =
      (⟨500, .err errInternalMessage⟩, [.find pid, .update u1]) := by
  simp [handleUpdate, hfind, happ, hupd]

/-- C8: for every request body whatsoever, every store call the handler makes
targets the identifier resolved from the session principal (assuming the
store hands back records under their own key): the record loaded and the
record updated are chosen independently of anything in the request body. -/
theorem handleUpdate_targets_principal_only
    (store : UserStore) (hash : HashStrategy) (pid : Int)
    (body : Except String UserInput)
    (hstore : ∀ u, store.find pid = .ok u → u.id = pid) :
    ∀ c ∈ (handleUpdate store hash pid body).2, StoreCall.targetId c = pid := by
  intro c hc
  cases hf : store.find pid with
  | error e =>
    simp [handleUpdate, hf] at hc
    subst hc; rfl
  | ok u =>
    have hid := hstore u hf
    cases body with
    | error e =>
      simp [handleUpdate, hf] at hc
      subst hc; rfl
    | ok input =>
      cases ha : applyFields hash u input with
      | error e2 =>
        simp [handleUpdate, hf, ha] at hc
        subst hc; rfl
      | ok u1 =>
        have h1 := (applyFields_ok hash u u1 input ha).1
        cases hu : store.update u1 with
        | some m =>
          simp [handleUpdate, hf, ha, hu] at hc
          rcases hc with rfl | rfl
          · rfl
          · simp [StoreCall.targetId, h1, hid]
        | none =>
          simp [handleUpdate, hf, ha, hu] at hc
          rcases hc with rfl | rfl
          · rfl
          · simp [StoreCall.targetId, h1, hid]

/-- C9: fields absent from the payload leave the corresponding fields of the
loaded record untouched in whatever record the handler hands to the store's
update operation; in particular an absent credential leaves the stored
credential hash unchanged. -/
theorem handleUpdate_absent_fields_frame
    (store : UserStore) (hash : HashStrategy) (pid : Int)
    (input : UserInput) (u : User)
    (hfind : store.find pid = .ok u) :
    ∀ u1, StoreCall.update u1 ∈ (handleUpdate store hash pid (.ok input)).2 →
      (input.password = none → u1.password = u.password) ∧
      (input.email = none → u1.email = u.email) ∧
      (input.name = none → u1.name = u.name) := by
  intro u1 hc
  cases ha : applyFields hash u input with
  | error e => simp [handleUpdate, hfind, ha] at hc
  | ok u2 =>
    have hch := applyFields_ok hash u u2 input ha
    have key : (input.password = none → u2.password = u.password) ∧
        (input.email = none → u2.email = u.email) ∧
        (input.name = none → u2.name = u.name) := by
      refine ⟨hch.2.2.2.2.1, ?_, ?_⟩
      · intro hem
        rw [hch.2.2.1, hem, Option.getD_none]
      · intro hnm
        rw [hch.2.2.2.1, hnm, Option.getD_none]
    cases hu : store.update u2 with
    | some m =>
      simp [handleUpdate, hfind, ha, hu] at hc
      rw [hc]
      exact key
    | none =>
      simp [handleUpdate, hfind, ha, hu] at hc
      rw [hc]
      exact key

/-! ## Witnesses at the concrete test scenarios -/

/-- Witness for C2 at the `TestUpdate` scenario: the response is 200, the
persisted record carries the static bcrypt hash (which differs from the
plaintext "password"), and its email is the payload's email. -/
theorem handleUpdate_stores_hash_output_witness :
    (handleUpdate okStore bcryptHashStatic 0 (Except.ok octocatInput)).1.code = 200 ∧
    ∃ u1, (handleUpdate okStore bcryptHashStatic 0 (Except.ok octocatInput)).2 =
        [StoreCall.find 0, StoreCall.update u1] ∧
      u1.password = staticBcryptHash ∧ u1.password ≠ "password" ∧
      u1.email = octocatInput.email.getD octocatBefore.email :=
  ⟨by rfl,
    handleUpdate_stores_hash_output okStore bcryptHashStatic 0 octocatInput octocatBefore
      "password" staticBcryptHash (by rfl) (by rfl) (by rfl) (by decide) (by rfl)⟩

/-- Witness for C3 at the `TestUpdate_HashError` scenario: 500 with the
generic message and the store's update never invoked. -/
theorem handleUpdate_hash_failure_no_persist_witness :
    handleUpdate okStore bcryptHashErrror 0 (Except.ok octocatInput) =
      (⟨500, Body.err errInternalMessage⟩, [StoreCall.find 0]) :=
  handleUpdate_hash_failure_no_persist okStore bcryptHashErrror 0 octocatInput octocatBefore
    "password" "crypto/bcrypt: hashedSecret too short to be a bcrypted password"
    (by rfl) (by rfl) (by rfl)

/-- Witness for C4 at the `TestUpdate_BadRequest` scenario: an empty body
decodes with error "EOF", answered by 400 with the message of the test, the
store's update never invoked. -/
theorem handleUpdate_decode_failure_bad_request_witness :
    handleUpdate okStore bcryptHashStatic 0 (Except.error "EOF") =
      (⟨400, Body.err "Invalid request body: EOF."⟩, [StoreCall.find 0]) :=
  handleUpdate_decode_failure_bad_request okStore bcryptHashStatic 0 octocatBefore "EOF"
    (by rfl)

/-- Witness for C5 at the `TestUpdate_ServerError` scenario: the update call
fails, the handler answers 500 with the generic message, and the record it
tried to persist was the mutated one. -/
theorem handleUpdate_store_failure_internal_witness :
    handleUpdate failUpdateStore bcryptHashStatic 0 (Except.ok emailOnlyInput) =
      (⟨500, Body.err errInternalMessage⟩,
        [StoreCall.find 0, StoreCall.update octocatAfterEmail]) :=
  handleUpdate_store_failure_internal failUpdateStore bcryptHashStatic 0 emailOnlyInput
    octocatBefore octocatAfterEmail "Error from UT" (by rfl) (by rfl) (by rfl)

/-- Witness for C8: in the concrete scenario the updated record's identifier
is the principal's identifier. -/
theorem handleUpdate_targets_principal_only_witness :
    StoreCall.targetId (StoreCall.update octocatAfterEmail) = 0 :=
  handleUpdate_targets_principal_only okStore bcryptHashStatic 0 (Except.ok emailOnlyInput)
    (by
      intro u hu
      simp [okStore] at hu
      subst hu
      rfl)
    (StoreCall.update octocatAfterEmail) (by decide)

/-- Witness for C9 at an email-only payload: the absent credential and
display name leave the persisted record's fields equal to the loaded ones. -/
theorem handleUpdate_absent_fields_frame_witness :
    (emailOnlyInput.password = none → octocatAfterEmail.password = octocatBefore.password) ∧
    (emailOnlyInput.email = none → octocatAfterEmail.email = octocatBefore.email) ∧
    (emailOnlyInput.name = none → octocatAfterEmail.name = octocatBefore.name) :=
  handleUpdate_absent_fields_frame okStore bcryptHashStatic 0 emailOnlyInput octocatBefore
    (by rfl) octocatAfterEmail (by decide)

end Gitness
